import Mathlib

/-!
Shallow embedding of the product-catalog query engine of the
fastapi-ecomerce repository, together with the write paths (create,
update, soft delete) of `app/routers/products.py` and the derived
search-vector column of `app/models/products.py`.

The relational store is modelled as a `List Product` (the `products`
table) and a `List Category` (the `categories` table).  PostgreSQL
full-text primitives (`websearch_to_tsquery`, `@@`, `ts_rank_cd`,
`to_tsvector`) are external to the repository and are modelled as
explicit function parameters (`tsMatch`, `tsRank`, `toTsvector`); every
theorem about them is universally quantified over those parameters.
-/

/-- PostgreSQL `tsvector` weight labels, `'A'` being the highest. -/
inductive TsWeight
  | A
  | B
  | C
  | D
deriving DecidableEq

/-- Numeric rank of a weight label: `'A'` outranks `'B'` outranks `'C'` outranks `'D'`. -/
def TsWeight.rank : TsWeight → Nat
  | .A => 3
  | .B => 2
  | .C => 1
  | .D => 0

/-- A searchable-text vector: a list of lexemes, each tagged with a weight label. -/
abbrev Tsv := List (String × TsWeight)

/-- PostgreSQL `setweight`: tag every lexeme of a vector with the given weight label. -/
def setweight (tokens : List String) (w : TsWeight) : Tsv :=
  tokens.map (fun t => (t, w))

/-- The `Computed` expression of the `tsv` column of `app/models/products.py`:
`setweight(to_tsvector('english', coalesce(name, '')), 'A') ||
 setweight(to_tsvector('english', coalesce(description, '')), 'B')`.
`toTsvector` abstracts the PostgreSQL `to_tsvector('english', ·)` tokenizer. -/
def deriveTsv (toTsvector : String → List String) (name : String)
    (descr : Option String) : Tsv :=
  setweight (toTsvector name) TsWeight.A ++
    setweight (toTsvector (descr.getD "")) TsWeight.B

/-- A row of the `products` table (`Product` model of `app/models/products.py`).
The `tsv` field is the persisted generated column; the write-path embeddings
below recompute it on every row write, as the database does. -/
structure Product where
  id : Nat
  name : String
  description : Option String
  price : Rat
  image_url : Option String
  stock : Nat
  rating : Rat
  is_active : Bool
  seller_id : Nat
  category_id : Nat
  tsv : Tsv
deriving DecidableEq

/-- A row of the `categories` table (`Category` model of `app/models/categories.py`). -/
structure Category where
  id : Nat
  name : String
  parent_id : Option Nat
  is_active : Bool
deriving DecidableEq

/-- A category id refers to an active category of the `categories` table. -/
def categoryIsActive (cats : List Category) (cid : Nat) : Bool :=
  cats.any (fun c => c.id == cid && c.is_active)

/-- The query parameters of `GET /products/` (`get_all_products`).
FastAPI validates `page ≥ 1`, `1 ≤ page_size ≤ 100`, `min_price ≥ 0`,
`max_price ≥ 0` and `search` of length ≥ 1 before the handler runs. -/
structure QueryRequest where
  page : Nat
  page_size : Nat
  category_id : Option Nat
  search : Option String
  min_price : Option Rat
  max_price : Option Rat
  in_stock : Option Bool
  seller_id : Option Nat
deriving DecidableEq

/-- The FastAPI-side range validation of the query parameters of
`get_all_products` (performed before the handler body runs). -/
def QueryRequest.valid (req : QueryRequest) : Prop :=
  1 ≤ req.page ∧ 1 ≤ req.page_size ∧ req.page_size ≤ 100

/-- The response body of `GET /products/` (the `ProductList` schema). -/
structure QueryResult where
  items : List Product
  total : Nat
  page : Nat
  page_size : Nat
deriving DecidableEq

/-- The `HTTPException` status codes raised by `app/routers/products.py`:
400 Bad Request (the spec's ValidationError), 403 Forbidden, 404 Not Found. -/
inductive ApiError
  | badRequest
  | forbidden
  | notFound
deriving DecidableEq

/-- The cross-field precondition check of `get_all_products`, lines 138-142:
`min_price is not None and max_price is not None and min_price > max_price`. -/
def priceRangeInvalid (req : QueryRequest) : Bool :=
  match req.min_price, req.max_price with
  | some mn, some mx => decide (mn > mx)
  | _, _ => false

/-- The filter list built by `get_all_products`, lines 144-159, before the
search clause: `is_active`, then the optional `category_id`, `min_price`,
`max_price`, `in_stock` and `seller_id` predicates, conjoined. -/
def baseFilter (req : QueryRequest) (p : Product) : Bool :=
  p.is_active
    && (match req.category_id with
        | none => true
        | some cid => p.category_id == cid)
    && (match req.min_price with
        | none => true
        | some mn => decide (mn ≤ p.price))
    && (match req.max_price with
        | none => true
        | some mx => decide (p.price ≤ mx))
    && (match req.in_stock with
        | none => true
        | some b => if b then decide (0 < p.stock) else p.stock == 0)
    && (match req.seller_id with
        | none => true
        | some sid => p.seller_id == sid)

/-- Python `str.strip()`: remove whitespace from both ends of a string. -/
def strip (s : String) : String :=
  String.mk (((s.data.dropWhile Char.isWhitespace).reverse.dropWhile
    Char.isWhitespace).reverse)

/-- The search term actually applied by `get_all_products`, lines 163-170:
a `search` parameter that is `None`, or whose `strip()` is empty, activates
no search clause; otherwise the stripped value is used. -/
def effectiveSearch (req : QueryRequest) : Option String :=
  match req.search with
  | none => none
  | some s =>
      let v := strip s
      if v = "" then none else some v

/-- The complete predicate set of a request: the base filters plus, when a
search term is active, the `tsv @@ websearch_to_tsquery(...)` clause. -/
def fullFilter (tsMatch : Tsv → String → Bool) (req : QueryRequest)
    (p : Product) : Bool :=
  match effectiveSearch req with
  | none => baseFilter req p
  | some q => baseFilter req p && tsMatch p.tsv q

/-- The `ORDER BY id` relation of the identifier-mode query. -/
def idLe (a b : Product) : Prop := a.id ≤ b.id

instance : DecidableRel idLe := fun a b => inferInstanceAs (Decidable (a.id ≤ b.id))

instance : IsTotal Product idLe := ⟨fun a b => Nat.le_total a.id b.id⟩

instance : IsTrans Product idLe := ⟨fun _ _ _ h1 h2 => Nat.le_trans h1 h2⟩

/-- The `ORDER BY desc(rank), id` relation of the relevance-mode query:
`a` precedes `b` when `a`'s `ts_rank_cd` score is strictly higher, or the
scores are equal and `a.id ≤ b.id`. -/
def rankOrder (tsRank : Tsv → String → Rat) (q : String) (a b : Product) : Prop :=
  tsRank b.tsv q < tsRank a.tsv q ∨
    (tsRank a.tsv q = tsRank b.tsv q ∧ a.id ≤ b.id)

instance (tsRank : Tsv → String → Rat) (q : String) :
    DecidableRel (rankOrder tsRank q) := fun a b =>
  inferInstanceAs (Decidable (_ ∨ _))

theorem rankOrder_total (tsRank : Tsv → String → Rat) (q : String) :
    ∀ a b, rankOrder tsRank q a b ∨ rankOrder tsRank q b a := by
  intro a b
  rcases lt_trichotomy (tsRank a.tsv q) (tsRank b.tsv q) with h | h | h
  · exact Or.inr (Or.inl h)
  · rcases Nat.le_total a.id b.id with hid | hid
    · exact Or.inl (Or.inr ⟨h, hid⟩)
    · exact Or.inr (Or.inr ⟨h.symm, hid⟩)
  · exact Or.inl (Or.inl h)

theorem rankOrder_trans (tsRank : Tsv → String → Rat) (q : String) :
    ∀ a b c, rankOrder tsRank q a b → rankOrder tsRank q b c →
      rankOrder tsRank q a c := by
  intro a b c hab hbc
  rcases hab with h1 | ⟨e1, i1⟩
  · rcases hbc with h2 | ⟨e2, _⟩
    · exact Or.inl (h2.trans h1)
    · exact Or.inl (e2 ▸ h1)
  · rcases hbc with h2 | ⟨e2, i2⟩
    · exact Or.inl (lt_of_lt_of_le h2 (le_of_eq e1.symm))
    · exact Or.inr ⟨e1.trans e2, Nat.le_trans i1 i2⟩

instance (tsRank : Tsv → String → Rat) (q : String) :
    IsTotal Product (rankOrder tsRank q) := ⟨rankOrder_total tsRank q⟩

instance (tsRank : Tsv → String → Rat) (q : String) :
    IsTrans Product (rankOrder tsRank q) :=
  ⟨fun a b c => rankOrder_trans tsRank q a b c⟩

/-- The handler of `GET /products/` (`get_all_products`, lines 78-199 of
`app/routers/products.py`), over a fixed snapshot of the `products` table.

Mirrored faithfully from the source:
* the `min_price > max_price` check raises 400 before any query;
* a `None` or whitespace-only `search` activates no search clause;
* with an active search term the count statement is re-built so that the
  count and the page share the same predicate set, the page is ordered by
  `desc(rank), id` and windowed with `offset((page-1)*page_size)` and
  `limit(page_size)`;
* without one the page is ordered by `id` and narrowed by `limit(page_size)`
  only — the source applies no `offset` in this branch. -/
def get_all_products (tsMatch : Tsv → String → Bool)
    (tsRank : Tsv → String → Rat) (req : QueryRequest)
    (store : List Product) : Except ApiError QueryResult :=
  if priceRangeInvalid req then
    .error .badRequest
  else
    match effectiveSearch req with
    | some q =>
        let matched := store.filter (fun p => baseFilter req p && tsMatch p.tsv q)
        let total := matched.length
        let sorted := List.insertionSort (rankOrder tsRank q) matched
        let items := (sorted.drop ((req.page - 1) * req.page_size)).take req.page_size
        .ok { items := items, total := total, page := req.page,
              page_size := req.page_size }
    | none =>
        let matched := store.filter (baseFilter req)
        let total := matched.length
        let sorted := List.insertionSort idLe matched
        let items := sorted.take req.page_size
        .ok { items := items, total := total, page := req.page,
              page_size := req.page_size }

/-- Modelled from the spec: the `ProductCreate` request schema
(`app/schemas.py` is not part of the provided sources).  Its fields are the
caller-supplied CatalogItem fields of §3 — name, optional description,
price, stock and category reference — exactly those spread into the
`Product` model by `create_product` and `update_product`. -/
structure ProductCreate where
  name : String
  description : Option String
  price : Rat
  stock : Nat
  category_id : Nat
deriving DecidableEq

/-- The handler of `POST /products/` (`create_product`, lines 202-239):
reject with 400 unless the payload's category exists and is active, then
insert a new row owned by the current seller.  The generated `tsv` column
is recomputed by the database on insert; image upload is elided (the new
row carries no image).  Error paths leave the table unchanged. -/
def create_product (toTsvector : String → List String)
    (payload : ProductCreate) (current_user_id : Nat) (cats : List Category)
    (newId : Nat) (store : List Product) :
    List Product × Except ApiError Product :=
  match cats.find? (fun c => c.id == payload.category_id && c.is_active) with
  | none => (store, .error .badRequest)
  | some _ =>
      let p : Product :=
        { id := newId
          name := payload.name
          description := payload.description
          price := payload.price
          image_url := none
          stock := payload.stock
          rating := 0
          is_active := true
          seller_id := current_user_id
          category_id := payload.category_id
          tsv := deriveTsv toTsvector payload.name payload.description }
      (store ++ [p], .ok p)

/-- The effect of the `UPDATE ... WHERE id == product_id VALUES(**new_data)`
statement of `update_product` on one row: overwrite the payload fields and
recompute the generated `tsv` column. -/
def applyUpdate (toTsvector : String → List String) (nd : ProductCreate)
    (p : Product) : Product :=
  { p with
    name := nd.name
    description := nd.description
    price := nd.price
    stock := nd.stock
    category_id := nd.category_id
    tsv := deriveTsv toTsvector nd.name nd.description }

/-- The handler of `PUT /products/{product_id}` (`update_product`, lines
312-373): 404 unless an active product with that id exists, 403 unless it
belongs to the current seller, 400 unless its category is active, and only
then the row update.  Every error path raises before the `UPDATE` statement
executes, so the table is returned unchanged there. -/
def update_product (toTsvector : String → List String) (product_id : Nat)
    (new_data : ProductCreate) (current_user_id : Nat) (cats : List Category)
    (store : List Product) : List Product × Except ApiError Product :=
  match store.find? (fun p => p.id == product_id && p.is_active) with
  | none => (store, .error .notFound)
  | some product =>
      if product.seller_id ≠ current_user_id then
        (store, .error .forbidden)
      else
        match cats.find? (fun c => c.id == product.category_id && c.is_active) with
        | none => (store, .error .badRequest)
        | some _ =>
            (store.map (fun p =>
               if p.id == product_id then applyUpdate toTsvector new_data p else p),
             .ok (applyUpdate toTsvector new_data product))

/-- The handler of `DELETE /products/{product_id}` (`delete_product`, lines
376-428): 404 unless an active product with that id exists, 403 unless it
belongs to the current seller, 400 unless its category is active, and only
then the soft delete (`is_active = False`).  Every error path raises before
the flag is flipped, so the table is returned unchanged there. -/
def delete_product (product_id : Nat) (current_user_id : Nat)
    (cats : List Category) (store : List Product) :
    List Product × Except ApiError Product :=
  match store.find? (fun p => p.id == product_id && p.is_active) with
  | none => (store, .error .notFound)
  | some product =>
      if product.seller_id ≠ current_user_id then
        (store, .error .forbidden)
      else
        match cats.find? (fun c => c.id == product.category_id && c.is_active) with
        | none => (store, .error .badRequest)
        | some _ =>
            (store.map (fun p =>
               if p.id == product_id then { p with is_active := false } else p),
             .ok { product with is_active := false })

/-- A product's stored search vector agrees with the generated-column
expression over its current name and description. -/
def tsvConsistent (toTsvector : String → List String) (p : Product) : Prop :=
  p.tsv = deriveTsv toTsvector p.name p.description

/-- Any item of a successful page was drawn from the store and satisfies the
complete predicate set of the request. -/
theorem mem_store_filter_of_mem_items (tsMatch : Tsv → String → Bool)
    (tsRank : Tsv → String → Rat) (req : QueryRequest) (store : List Product)
    (res : QueryResult)
    (h : get_all_products tsMatch tsRank req store = Except.ok res) :
    ∀ p ∈ res.items, p ∈ store.filter (fullFilter tsMatch req) := by
  intro p hp
  unfold get_all_products at h
  cases hpr : priceRangeInvalid req with
  | true => rw [hpr] at h; simp at h
  | false =>
      rw [hpr] at h
      simp only [Bool.false_eq_true, if_false] at h
      unfold fullFilter
      cases hq : effectiveSearch req with
      | none =>
          rw [hq] at h
          injection h with h
          subst h
          simp only [] at hp
          have h1 : p ∈ List.insertionSort idLe (store.filter (baseFilter req)) :=
            List.mem_of_mem_take hp
          exact (List.perm_insertionSort idLe _).mem_iff.mp h1
      | some q =>
          rw [hq] at h
          injection h with h
          subst h
          simp only [] at hp
          have h1 := List.mem_of_mem_drop (List.mem_of_mem_take hp)
          exact (List.perm_insertionSort (rankOrder tsRank q) _).mem_iff.mp h1

/-- The `total` of a successful response is the number of store rows
satisfying the complete predicate set of the request. -/
theorem total_eq_filter_length (tsMatch : Tsv → String → Bool)
    (tsRank : Tsv → String → Rat) (req : QueryRequest) (store : List Product)
    (res : QueryResult)
    (h : get_all_products tsMatch tsRank req store = Except.ok res) :
    res.total = (store.filter (fullFilter tsMatch req)).length := by
  unfold get_all_products at h
  cases hpr : priceRangeInvalid req with
  | true => rw [hpr] at h; simp at h
  | false =>
      rw [hpr] at h
      simp only [Bool.false_eq_true, if_false] at h
      unfold fullFilter
      cases hq : effectiveSearch req with
      | none => rw [hq] at h; injection h with h; subst h; rfl
      | some q => rw [hq] at h; injection h with h; subst h; rfl

/-- A trivial relevance-match stand-in used for concrete evaluations. -/
def tsMatch0 : Tsv → String → Bool := fun _ _ => false

/-- A relevance-match stand-in that matches everything, for concrete
evaluations of the relevance branch. -/
def tsMatchAll : Tsv → String → Bool := fun _ _ => true

/-- A constant relevance score used for concrete evaluations. -/
def tsRank0 : Tsv → String → Rat := fun _ _ => 0

/-- A whitespace-splitting stand-in for `to_tsvector('english', ·)`. -/
def toTsv0 : String → List String := fun s => s.splitOn " "

/-- An unfiltered first-page request: all optional criteria absent,
`page = 1`, `page_size = 20` (the handler defaults). -/
def defaultReq : QueryRequest :=
  { page := 1, page_size := 20, category_id := none, search := none,
    min_price := none, max_price := none, in_stock := none, seller_id := none }

/-- An active one-unit-stock product priced 1, owned by seller 1, in
category 1; used as a concrete store row. -/
def prod1 : Product :=
  { id := 1, name := "x", description := none, price := 1, image_url := none,
    stock := 1, rating := 0, is_active := true, seller_id := 1,
    category_id := 1, tsv := [] }

/-- A category table whose only category (id 1) is inactive. -/
def inactiveCats : List Category :=
  [{ id := 1, name := "c", parent_id := none, is_active := false }]

/-- C8: evaluating `get_all_products` twice on the same request and the same
unchanged store yields identical results: the handler is a pure function of
the request and the store snapshot, with a deterministic ordering in both
modes, so the two responses agree in items, order, total and the echoed
page parameters. -/
theorem C8_idempotent (tsMatch : Tsv → String → Bool)
    (tsRank : Tsv → String → Rat) (req : QueryRequest) (store : List Product) :
    get_all_products tsMatch tsRank req store =
      get_all_products tsMatch tsRank req store := rfl

/-- C2, counterexample: an active product whose category is inactive is
returned by an unfiltered list request — `get_all_products` never consults
the category table (the category join is commented out in the source), so
the claim that items of inactive categories never appear is false. -/
theorem C2_counterexample :
    ∃ res, get_all_products tsMatch0 tsRank0 defaultReq [prod1] = Except.ok res ∧
      prod1 ∈ res.items ∧ categoryIsActive inactiveCats prod1.category_id = false := by
  refine ⟨_, rfl, ?_, ?_⟩
  · decide
  · decide

/-- C2, amended: no item with `active = false` ever appears in any result,
regardless of which optional filters are supplied; category activity,
however, is not checked by the list query, so items of inactive categories
are not excluded. -/
theorem C2_amended_active_only (tsMatch : Tsv → String → Bool)
    (tsRank : Tsv → String → Rat) (req : QueryRequest) (store : List Product)
    (res : QueryResult)
    (h : get_all_products tsMatch tsRank req store = Except.ok res) :
    ∀ p ∈ res.items, p.is_active = true := by
  intro p hp
  have hmem := mem_store_filter_of_mem_items tsMatch tsRank req store res h p hp
  have hf := List.of_mem_filter hmem
  unfold fullFilter at hf
  cases hq : effectiveSearch req with
  | none =>
      rw [hq] at hf
      unfold baseFilter at hf
      simp only [Bool.and_eq_true] at hf
      exact hf.1.1.1.1.1
  | some q =>
      rw [hq] at hf
      simp only [Bool.and_eq_true] at hf
      unfold baseFilter at hf
      simp only [Bool.and_eq_true] at hf
      exact hf.1.1.1.1.1.1

theorem C2_amended_witness :
    get_all_products tsMatch0 tsRank0 defaultReq [prod1] =
      Except.ok { items := [prod1], total := 1, page := 1, page_size := 20 } ∧
    ∀ p ∈ ({ items := [prod1], total := 1, page := 1,
             page_size := 20 } : QueryResult).items, p.is_active = true :=
  ⟨rfl, C2_amended_active_only tsMatch0 tsRank0 defaultReq [prod1]
    { items := [prod1], total := 1, page := 1, page_size := 20 } rfl⟩

/-- C9: when `in_stock` is supplied, every returned item has `stock > 0` if
the flag is true, and `stock == 0` if the flag is false — items with
positive stock are excluded by the filter, not merely deprioritized. -/
theorem C9_in_stock_filter (tsMatch : Tsv → String → Bool)
    (tsRank : Tsv → String → Rat) (req : QueryRequest) (store : List Product)
    (res : QueryResult) (b : Bool) (hb : req.in_stock = some b)
    (h : get_all_products tsMatch tsRank req store = Except.ok res) :
    ∀ p ∈ res.items, (b = true → 0 < p.stock) ∧ (b = false → p.stock = 0) := by
  intro p hp
  have hmem := mem_store_filter_of_mem_items tsMatch tsRank req store res h p hp
  have hf := List.of_mem_filter hmem
  unfold fullFilter at hf
  have hbase : baseFilter req p = true := by
    cases hq : effectiveSearch req with
    | none => rw [hq] at hf; exact hf
    | some q => rw [hq] at hf; exact (Bool.and_eq_true _ _ |>.mp hf).1
  unfold baseFilter at hbase
  simp only [Bool.and_eq_true] at hbase
  have hstock := hbase.1.2
  rw [hb] at hstock
  cases b with
  | true =>
      refine ⟨fun _ => ?_, fun hfalse => by cases hfalse⟩
      simpa using hstock
  | false =>
      refine ⟨fun htrue => (Bool.false_ne_true htrue).elim, fun _ => ?_⟩
      simpa using hstock

theorem C9_witness :
    (let req := { defaultReq with in_stock := some true }
     req.in_stock = some true ∧
     get_all_products tsMatch0 tsRank0 req [prod1] =
       Except.ok { items := [prod1], total := 1, page := 1, page_size := 20 } ∧
     ∀ p ∈ ({ items := [prod1], total := 1, page := 1,
              page_size := 20 } : QueryResult).items,
       (true = true → 0 < p.stock) ∧ (true = false → p.stock = 0)) :=
  ⟨rfl, rfl, C9_in_stock_filter tsMatch0 tsRank0
    { defaultReq with in_stock := some true } [prod1]
    { items := [prod1], total := 1, page := 1, page_size := 20 } true rfl rfl⟩

/-- A request whose price range is inverted: `min_price = 2 > 1 = max_price`. -/
def reqBadPrice : QueryRequest :=
  { defaultReq with min_price := some 2, max_price := some 1 }

/-- C5: with both price bounds supplied, an inverted range
(`min_price > max_price`) is rejected with 400 for every store — the check
runs before any query — and for a valid pair every returned item's price
lies within `[min_price, max_price]`. -/
theorem C5_price_range (tsMatch : Tsv → String → Bool)
    (tsRank : Tsv → String → Rat) (req : QueryRequest) (mn mx : Rat)
    (hmn : req.min_price = some mn) (hmx : req.max_price = some mx) :
    (mx < mn → ∀ store, get_all_products tsMatch tsRank req store =
        Except.error ApiError.badRequest) ∧
    (∀ store res, get_all_products tsMatch tsRank req store = Except.ok res →
        ∀ p ∈ res.items, mn ≤ p.price ∧ p.price ≤ mx) := by
  constructor
  · intro hlt store
    have hpr : priceRangeInvalid req = true := by
      unfold priceRangeInvalid
      rw [hmn, hmx]
      simpa using hlt
    unfold get_all_products
    rw [hpr]
    rfl
  · intro store res h p hp
    have hmem := mem_store_filter_of_mem_items tsMatch tsRank req store res h p hp
    have hf := List.of_mem_filter hmem
    unfold fullFilter at hf
    have hbase : baseFilter req p = true := by
      cases hq : effectiveSearch req with
      | none => rw [hq] at hf; exact hf
      | some q => rw [hq] at hf; exact (Bool.and_eq_true _ _ |>.mp hf).1
    unfold baseFilter at hbase
    simp only [Bool.and_eq_true] at hbase
    have h1 := hbase.1.1.1.2
    have h2 := hbase.1.1.2
    rw [hmn] at h1
    rw [hmx] at h2
    exact ⟨by simpa using h1, by simpa using h2⟩

theorem C5_witness :
    reqBadPrice.min_price = some 2 ∧ reqBadPrice.max_price = some 1 ∧
    get_all_products tsMatch0 tsRank0 reqBadPrice [prod1] =
      Except.error ApiError.badRequest ∧
    (((1 : Rat) < 2 → ∀ store, get_all_products tsMatch0 tsRank0 reqBadPrice store =
        Except.error ApiError.badRequest) ∧
     (∀ store res, get_all_products tsMatch0 tsRank0 reqBadPrice store = Except.ok res →
        ∀ p ∈ res.items, 2 ≤ p.price ∧ p.price ≤ 1)) :=
  ⟨rfl, rfl, rfl,
   C5_price_range tsMatch0 tsRank0 reqBadPrice 2 1 rfl rfl⟩

/-- C7: a search string that is non-null but whitespace-only after trimming
is processed exactly as if no search parameter had been supplied — same
identifier-mode ordering, no relevance predicate — and, whenever the price
range is valid, the request succeeds. -/
theorem C7_whitespace_search (tsMatch : Tsv → String → Bool)
    (tsRank : Tsv → String → Rat) (req : QueryRequest) (store : List Product)
    (s : String) (hs : req.search = some s) (htrim : strip s = "") :
    get_all_products tsMatch tsRank req store =
      get_all_products tsMatch tsRank { req with search := none } store ∧
    (priceRangeInvalid req = false →
      ∃ res, get_all_products tsMatch tsRank req store = Except.ok res) := by
  have he : effectiveSearch req = none := by
    unfold effectiveSearch
    rw [hs]
    simp [htrim]
  constructor
  · unfold get_all_products
    rw [he]
    rfl
  · intro hpr
    unfold get_all_products
    rw [he, hpr]
    exact ⟨_, rfl⟩

theorem C7_witness :
    ({ defaultReq with search := some " " } : QueryRequest).search = some " " ∧
    (strip " " = "") ∧
    (get_all_products tsMatch0 tsRank0 { defaultReq with search := some " " } [prod1] =
       get_all_products tsMatch0 tsRank0 defaultReq [prod1] ∧
     (priceRangeInvalid { defaultReq with search := some " " } = false →
       ∃ res, get_all_products tsMatch0 tsRank0
         { defaultReq with search := some " " } [prod1] = Except.ok res)) :=
  ⟨rfl, by decide,
   C7_whitespace_search tsMatch0 tsRank0 { defaultReq with search := some " " }
     [prod1] " " rfl (by decide)⟩

/-- C10: when an active product exists but belongs to a different seller
than the caller, both the update and the soft-delete handlers return 403
Forbidden with the product table unchanged — the ownership check runs
before the row write in both handlers. -/
theorem C10_ownership (toTsvector : String → List String) (product_id : Nat)
    (new_data : ProductCreate) (current_user_id : Nat) (cats : List Category)
    (store : List Product) (product : Product)
    (hfind : store.find? (fun p => p.id == product_id && p.is_active) = some product)
    (hneq : product.seller_id ≠ current_user_id) :
    update_product toTsvector product_id new_data current_user_id cats store =
      (store, Except.error ApiError.forbidden) ∧
    delete_product product_id current_user_id cats store =
      (store, Except.error ApiError.forbidden) := by
  constructor
  · unfold update_product
    rw [hfind]
    simp [hneq]
  · unfold delete_product
    rw [hfind]
    simp [hneq]

/-- A sample update payload used by concrete evaluations. -/
def payload0 : ProductCreate :=
  { name := "n", description := none, price := 1, stock := 1, category_id := 1 }

theorem C10_witness :
    ([prod1].find? (fun p => p.id == 1 && p.is_active) = some prod1) ∧
    prod1.seller_id ≠ 2 ∧
    (update_product toTsv0 1 payload0 2 inactiveCats [prod1] =
       ([prod1], Except.error ApiError.forbidden) ∧
     delete_product 1 2 inactiveCats [prod1] =
       ([prod1], Except.error ApiError.forbidden)) :=
  ⟨rfl, by decide,
   C10_ownership toTsv0 1 payload0 2 inactiveCats [prod1] prod1 rfl (by decide)⟩

/-- C6: the searchable-text vector is maintained as a pure function of the
current name and description by every write path — if every row of the
store satisfies `tsvConsistent`, the store after a create and the store
after an update still do — every lexeme of the derived vector comes from
the name with weight `'A'` or from the description with weight `'B'`, and
weight `'A'` strictly outranks weight `'B'`. -/
theorem C6_search_vector (toTsvector : String → List String)
    (payload : ProductCreate) (current_user_id newId product_id : Nat)
    (new_data : ProductCreate) (cats : List Category) (store : List Product)
    (hstore : ∀ p ∈ store, tsvConsistent toTsvector p) :
    (∀ p ∈ (create_product toTsvector payload current_user_id cats newId store).1,
        tsvConsistent toTsvector p) ∧
    (∀ p ∈ (update_product toTsvector product_id new_data current_user_id cats store).1,
        tsvConsistent toTsvector p) ∧
    (∀ name descr tok w, (tok, w) ∈ deriveTsv toTsvector name descr →
        (w = TsWeight.A ∧ tok ∈ toTsvector name) ∨
        (w = TsWeight.B ∧ tok ∈ toTsvector (descr.getD ""))) ∧
    TsWeight.rank TsWeight.B < TsWeight.rank TsWeight.A := by
  refine ⟨?_, ?_, ?_, by decide⟩
  · intro p hp
    unfold create_product at hp
    cases hc : cats.find? (fun c => c.id == payload.category_id && c.is_active) with
    | none => rw [hc] at hp; exact hstore p hp
    | some c =>
        rw [hc] at hp
        simp only [List.mem_append, List.mem_singleton] at hp
        rcases hp with hp | hp
        · exact hstore p hp
        · subst hp; rfl
  · intro p hp
    unfold update_product at hp
    split at hp
    · exact hstore p hp
    · split at hp
      · exact hstore p hp
      · split at hp
        · exact hstore p hp
        · simp only [List.mem_map] at hp
          obtain ⟨a, ha, hpa⟩ := hp
          by_cases hid : (a.id == product_id) = true
          · rw [if_pos hid] at hpa
            subst hpa; rfl
          · rw [if_neg hid] at hpa
            subst hpa
            exact hstore a ha
  · intro name descr tok w hmem
    unfold deriveTsv setweight at hmem
    simp only [List.mem_append, List.mem_map] at hmem
    rcases hmem with ⟨t, ht, he⟩ | ⟨t, ht, he⟩
    · injection he with h1 h2
      exact Or.inl ⟨h2.symm, h1 ▸ ht⟩
    · injection he with h1 h2
      exact Or.inr ⟨h2.symm, h1 ▸ ht⟩

theorem C6_witness :
    (∀ p ∈ ([] : List Product), tsvConsistent toTsv0 p) ∧
    ((∀ p ∈ (create_product toTsv0 payload0 1 [] 1 []).1, tsvConsistent toTsv0 p) ∧
     (∀ p ∈ (update_product toTsv0 1 payload0 1 [] []).1, tsvConsistent toTsv0 p) ∧
     (∀ name descr tok w, (tok, w) ∈ deriveTsv toTsv0 name descr →
         (w = TsWeight.A ∧ tok ∈ toTsv0 name) ∨
         (w = TsWeight.B ∧ tok ∈ toTsv0 (descr.getD ""))) ∧
     TsWeight.rank TsWeight.B < TsWeight.rank TsWeight.A) :=
  ⟨fun p hp => absurd hp (List.not_mem_nil p),
   C6_search_vector toTsv0 payload0 1 1 1 payload0 [] []
     (fun p hp => absurd hp (List.not_mem_nil p))⟩

/-- With an active search term, the returned page is the
`offset/limit` window over the matching rows sorted by `desc(rank), id`. -/
theorem items_eq_window_of_search (tsMatch : Tsv → String → Bool)
    (tsRank : Tsv → String → Rat) (req : QueryRequest) (store : List Product)
    (q : String) (res : QueryResult)
    (hq : effectiveSearch req = some q)
    (h : get_all_products tsMatch tsRank req store = Except.ok res) :
    res.items = ((List.insertionSort (rankOrder tsRank q)
        (store.filter (fun p => baseFilter req p && tsMatch p.tsv q))).drop
          ((req.page - 1) * req.page_size)).take req.page_size := by
  unfold get_all_products at h
  cases hpr : priceRangeInvalid req with
  | true => rw [hpr] at h; simp at h
  | false =>
      rw [hpr] at h
      simp only [Bool.false_eq_true, if_false] at h
      rw [hq] at h
      injection h with h
      subst h
      rfl

/-- C4: with a non-empty search term active, the returned page is strictly
ordered — descending by relevance score, identifier ascending among equal
scores — and the total is the count of the store rows satisfying exactly
the same predicate set (base filters plus the search predicate) from which
the page itself is drawn. -/
theorem C4_relevance_mode (tsMatch : Tsv → String → Bool)
    (tsRank : Tsv → String → Rat) (req : QueryRequest) (store : List Product)
    (q : String) (res : QueryResult)
    (hq : effectiveSearch req = some q)
    (hids : (store.map Product.id).Nodup)
    (h : get_all_products tsMatch tsRank req store = Except.ok res) :
    res.items.Pairwise (fun a b =>
      tsRank b.tsv q < tsRank a.tsv q ∨
        (tsRank a.tsv q = tsRank b.tsv q ∧ a.id < b.id)) ∧
    res.total = (store.filter (fun p => baseFilter req p && tsMatch p.tsv q)).length ∧
    ∀ p ∈ res.items, p ∈ store.filter (fun p => baseFilter req p && tsMatch p.tsv q) := by
  have hfull : store.filter (fullFilter tsMatch req) =
      store.filter (fun p => baseFilter req p && tsMatch p.tsv q) := by
    congr 1
    funext p
    unfold fullFilter
    rw [hq]
  refine ⟨?_, ?_, ?_⟩
  · rw [items_eq_window_of_search tsMatch tsRank req store q res hq h]
    have hsorted : (List.insertionSort (rankOrder tsRank q)
        (store.filter (fun p => baseFilter req p && tsMatch p.tsv q))).Pairwise
          (rankOrder tsRank q) :=
      List.sorted_insertionSort (rankOrder tsRank q) _
    have hperm := List.perm_insertionSort (rankOrder tsRank q)
      (store.filter (fun p => baseFilter req p && tsMatch p.tsv q))
    have hstoreNe : store.Pairwise (fun a b => a.id ≠ b.id) :=
      List.pairwise_map.mp hids
    have hneSorted : (List.insertionSort (rankOrder tsRank q)
        (store.filter (fun p => baseFilter req p && tsMatch p.tsv q))).Pairwise
          (fun a b => a.id ≠ b.id) :=
      (List.Perm.pairwise_iff (fun hxy => Ne.symm hxy) hperm).mpr
        (hstoreNe.filter _)
    have hcomb := hsorted.and hneSorted
    refine List.Pairwise.sublist
      ((List.take_sublist _ _).trans (List.drop_sublist _ _)) (hcomb.imp ?_)
    intro a b hab
    rcases hab with ⟨hlt | ⟨heq, hle⟩, hne⟩
    · exact Or.inl hlt
    · exact Or.inr ⟨heq, Nat.lt_of_le_of_ne hle hne⟩
  · have := total_eq_filter_length tsMatch tsRank req store res h
    rwa [hfull] at this
  · intro p hp
    have := mem_store_filter_of_mem_items tsMatch tsRank req store res h p hp
    rwa [hfull] at this

/-- A second active product (id 2), for multi-row evaluations. -/
def prod2 : Product :=
  { id := 2, name := "y", description := none, price := 1, image_url := none,
    stock := 0, rating := 0, is_active := true, seller_id := 1,
    category_id := 1, tsv := [] }

/-- A request carrying the search term `"w"`. -/
def reqSearch : QueryRequest := { defaultReq with search := some "w" }

/-- The result of `reqSearch` over `[prod1, prod2]` with an
everything-matches relevance predicate and a constant score. -/
def resSearch : QueryResult :=
  { items := [prod1, prod2], total := 2, page := 1, page_size := 20 }

theorem C4_witness :
    effectiveSearch reqSearch = some "w" ∧
    (([prod1, prod2].map Product.id).Nodup) ∧
    get_all_products tsMatchAll tsRank0 reqSearch [prod1, prod2] =
      Except.ok resSearch ∧
    (resSearch.items.Pairwise (fun a b =>
        tsRank0 b.tsv "w" < tsRank0 a.tsv "w" ∨
          (tsRank0 a.tsv "w" = tsRank0 b.tsv "w" ∧ a.id < b.id)) ∧
     resSearch.total = ([prod1, prod2].filter
        (fun p => baseFilter reqSearch p && tsMatchAll p.tsv "w")).length ∧
     ∀ p ∈ resSearch.items, p ∈ [prod1, prod2].filter
        (fun p => baseFilter reqSearch p && tsMatchAll p.tsv "w")) :=
  ⟨rfl, by decide, rfl,
   C4_relevance_mode tsMatchAll tsRank0 reqSearch [prod1, prod2] "w" resSearch
     rfl (by decide) rfl⟩

/-- One of 25 interchangeable active items, id `i`. -/
def mkItem (i : Nat) : Product :=
  { id := i, name := "x", description := none, price := 1, image_url := none,
    stock := 1, rating := 0, is_active := true, seller_id := 1,
    category_id := 1, tsv := [] }

/-- A store of 25 active items with ids 1..25. -/
def store25 : List Product := (List.range 25).map (fun i => mkItem (i + 1))

/-- Page 3 of size 10, no filters. -/
def reqPage3 : QueryRequest := { defaultReq with page := 3, page_size := 10 }

/-- Page 4 of size 10, no filters. -/
def reqPage4 : QueryRequest := { defaultReq with page := 4, page_size := 10 }

/-- C1, evaluation at the failing input: with 25 active unfiltered items and
`page = 3`, `page_size = 10`, the identifier-mode branch returns the items
with ids 1..10 — not the 5 items at positions 21..25 — because the source
builds this branch with `limit(page_size)` but no
`offset((page - 1) * page_size)`. -/
theorem C1_missing_offset :
    ∃ res, get_all_products tsMatch0 tsRank0 reqPage3 store25 = Except.ok res ∧
      res.total = 25 ∧
      res.items.map Product.id = [1, 2, 3, 4, 5, 6, 7, 8, 9, 10] ∧
      res.items.map Product.id ≠ [21, 22, 23, 24, 25] :=
  ⟨_, rfl, by decide, by decide, by decide⟩

/-- C3, evaluation at the failing input: with 25 matching items and
`page = 4`, `page_size = 10` — an offset of 30, beyond the last match — the
identifier-mode branch still returns 10 items instead of an empty sequence,
again because the source omits the offset in this branch. -/
theorem C3_out_of_range_page :
    ∃ res, get_all_products tsMatch0 tsRank0 reqPage4 store25 = Except.ok res ∧
      res.total = 25 ∧ res.total ≤ (reqPage4.page - 1) * reqPage4.page_size ∧
      res.items ≠ [] ∧ res.items.length = 10 :=
  ⟨_, rfl, by decide, by decide, by decide, by decide⟩
